import Mathlib

/-!
Verification of the training-loop orchestrator (BaseSDTrainProcess /
TrainVAEProcess): a shallow embedding of the step-scheduling, checkpoint
lifecycle, loss composition and critic sub-loop logic, with theorems
settling the specification's claims.

Conventions of the embedding:
* Python ints are `Nat` (all counters involved are non-negative).
* Python floats are modelled as rationals `ℚ` (exact real-number
  semantics of the arithmetic the code performs).
* Python truthiness of an optional integer (`None`/`0` falsy) is
  modelled on `Option Nat`.
* Filesystem state is a list of checkpoint files in creation order.
-/

namespace AIToolkit

/-! ## PeriodicScheduler

From `BaseSDTrainProcess.run` (lines 404-423) and `TrainVAEProcess.run`
(lines 641-662): every periodic action is guarded by
`if self.step_num != self.start_step:` and then
`if interval and self.step_num % interval == 0:`.
-/

/-- Python truthiness of an optional integer interval: `None` and `0` are
falsy. -/
def pyTruthy : Option Nat → Bool
  | none => false
  | some n => n != 0

/-- The inner guard `interval and step % interval == 0` of each periodic
action. Short-circuit: when the interval is falsy the modulus is never
evaluated. -/
def fire_check (step : Nat) (interval : Option Nat) : Bool :=
  match interval with
  | none => false
  | some i => if i == 0 then false else step % i == 0

/-- The full periodic predicate shared by sampling, saving and logging:
the outer `step_num != start_step` guard composed with `fire_check`. -/
def should_fire (step start_step : Nat) (interval : Option Nat) : Bool :=
  if step != start_step then fire_check step interval else false

/-! ## Checkpoint resume (BaseSDTrainProcess)

`get_training_info` (lines 130-134) records `step_num + 1` in the
metadata; `load_weights` (lines 217-228) sets both `step_num` and
`start_step` to the metadata's step when present.
-/

/-- The step/start-step portion of the trainer state. -/
structure TrainState where
  step_num : Nat
  start_step : Nat
  deriving DecidableEq, Repr

/-- From `BaseSDTrainProcess.get_training_info`: the `step` value written
into checkpoint metadata is `self.step_num + 1`. -/
def get_training_info (s : TrainState) : Nat :=
  s.step_num + 1

/-- From `BaseSDTrainProcess.load_weights`: when the metadata holds a step
count, both `step_num` and `start_step` are set to it. -/
def load_weights (metaStep : Nat) : TrainState :=
  { step_num := metaStep, start_step := metaStep }

/-- Saving at state `s` then resuming from the resulting checkpoint:
the metadata written by the save is `get_training_info s`, and
`load_weights` reads it back. -/
def resume_after_save (s : TrainState) : TrainState :=
  load_weights (get_training_info s)

/-! ## Critic generator-loss contribution (TrainVAEProcess.Critic)

From `Critic.get_critic_loss` (TrainVAEProcess.py lines 110-127). The
critic scores on the prediction half (`self.model(vgg_pred)`) are
abstracted as a list of rationals; the code returns
`(-torch.mean(stacked_output)) * warmup_scaler`.
-/

/-- `-torch.mean(scores)`: the negative arithmetic mean of a batch of
critic scores. -/
def negMean (scores : List ℚ) : ℚ :=
  -(scores.sum / scores.length)

/-- From `Critic.get_critic_loss`: zero before `start_step`; otherwise
the negative mean critic score on the prediction half scaled by the
warmup factor `(step_num - start_step) / warmup_steps`, which is left at
`1.0` once `step_num >= start_step + warmup_steps`. -/
def get_critic_loss (start_step warmup_steps step_num : Nat)
    (predScores : List ℚ) : ℚ :=
  if start_step > step_num then 0
  else
    let warmup_scaler : ℚ :=
      if step_num < start_step + warmup_steps then
        ((step_num : ℚ) - (start_step : ℚ)) / (warmup_steps : ℚ)
      else 1
    negMean predScores * warmup_scaler

/-! ## Loss composition (TrainVAEProcess)

From `TrainVAEProcess.get_style_loss` / `get_content_loss` /
`get_mse_loss` / `get_kld_loss` / `get_tv_loss` (lines 306-349): each
term is computed only when its weight is strictly positive, otherwise a
zero tensor is returned without running the computation path. The raw
values the computation paths would produce are abstracted as rationals;
each getter returns the value together with a flag recording whether the
computation path was executed. From `TrainVAEProcess.run`
(lines 564-579): each getter's result is multiplied by its weight and the
total is the sum, with the critic-generator term multiplied by
`critic_weight` (or a zero tensor when the critic is disabled).
-/

/-- The configured weights of the composable loss terms. -/
structure VAELossWeights where
  style_weight : ℚ
  content_weight : ℚ
  kld_weight : ℚ
  mse_weight : ℚ
  tv_weight : ℚ
  critic_weight : ℚ
  deriving DecidableEq, Repr

/-- Abstract values of each term's computation path (what the path would
produce if executed). `critic` abstracts `critic.get_critic_loss(...)`. -/
structure RawLossTerms where
  style : ℚ
  content : ℚ
  mse : ℚ
  kld : ℚ
  tv : ℚ
  critic : ℚ
  deriving DecidableEq, Repr

/-- From `get_style_loss`: `(value, computation path executed)`. -/
def get_style_loss (w : VAELossWeights) (raw : RawLossTerms) : ℚ × Bool :=
  if w.style_weight > 0 then (raw.style, true) else (0, false)

/-- From `get_content_loss`: `(value, computation path executed)`. -/
def get_content_loss (w : VAELossWeights) (raw : RawLossTerms) : ℚ × Bool :=
  if w.content_weight > 0 then (raw.content, true) else (0, false)

/-- From `get_mse_loss`: `(value, computation path executed)`. -/
def get_mse_loss (w : VAELossWeights) (raw : RawLossTerms) : ℚ × Bool :=
  if w.mse_weight > 0 then (raw.mse, true) else (0, false)

/-- From `get_kld_loss`: `(value, computation path executed)`. -/
def get_kld_loss (w : VAELossWeights) (raw : RawLossTerms) : ℚ × Bool :=
  if w.kld_weight > 0 then (raw.kld, true) else (0, false)

/-- From `get_tv_loss`: `(value, computation path executed)`. -/
def get_tv_loss (w : VAELossWeights) (raw : RawLossTerms) : ℚ × Bool :=
  if w.tv_weight > 0 then (raw.tv, true) else (0, false)

/-- From `TrainVAEProcess.run` lines 569-579: the total loss of one step.
Each term getter's value is multiplied by its weight; the
critic-generator contribution is `critic.get_critic_loss(...) *
critic_weight` when the critic is enabled and a zero tensor otherwise. -/
def vae_total_loss (w : VAELossWeights) (use_critic : Bool)
    (raw : RawLossTerms) : ℚ :=
  let style_loss := (get_style_loss w raw).1 * w.style_weight
  let content_loss := (get_content_loss w raw).1 * w.content_weight
  let kld_loss := (get_kld_loss w raw).1 * w.kld_weight
  let mse_loss := (get_mse_loss w raw).1 * w.mse_weight
  let tv_loss := (get_tv_loss w raw).1 * w.tv_weight
  let critic_gen_loss := if use_critic then raw.critic * w.critic_weight else 0
  style_loss + content_loss + kld_loss + mse_loss + tv_loss + critic_gen_loss

/-! ## Critic discriminator update (Critic.step)

From `Critic.step` (TrainVAEProcess.py lines 129-159). Each inner
iteration performs, in order: `optimizer.zero_grad()`, a forward pass and
loss computation, `critic_loss.backward()`, `optimizer.zero_grad()`
again, `optimizer.step()`, `scheduler.step()`. The optimizer state is
modelled as abstract parameters and an accumulated gradient;
`backward` adds the loss gradient to the accumulator, `zero_grad` resets
it, and `step` applies an abstract update function of the current
parameters and the current gradient accumulator.
-/

/-- Abstract critic optimizer state: parameters and the gradient
accumulator. -/
structure CriticOptState where
  params : ℚ
  grads : ℚ
  deriving DecidableEq, Repr

/-- One inner iteration of `Critic.step` (lines 136-155), as the exact
sequence of optimizer-state operations the source performs:
`zero_grad`; `backward` (accumulate `lossGrad`); `zero_grad` again;
`step` (apply `optUpdate` to the current parameters and gradients). -/
def critic_inner_iter (optUpdate : ℚ → ℚ → ℚ) (lossGrad : ℚ)
    (s : CriticOptState) : CriticOptState :=
  let s1 : CriticOptState := { s with grads := 0 }
  let s2 : CriticOptState := { s1 with grads := s1.grads + lossGrad }
  let s3 : CriticOptState := { s2 with grads := 0 }
  { s3 with params := optUpdate s3.params s3.grads }

/-- The optimizer-state effect of a full `Critic.step` call:
`num_critic_per_gen` inner iterations, the i-th with loss gradient
`lossGrads i`. -/
def critic_step_opt (optUpdate : ℚ → ℚ → ℚ) (lossGrads : Nat → ℚ)
    (num_critic_per_gen : Nat) (s0 : CriticOptState) : CriticOptState :=
  (List.range num_critic_per_gen).foldl
    (fun s i => critic_inner_iter optUpdate (lossGrads i) s) s0

/-- A plain gradient-descent update, used to exhibit that the source's
update sequence is insensitive to the loss gradient. -/
def sgdUpdate (lr : ℚ) (p g : ℚ) : ℚ :=
  p - lr * g

/-- The critic loss of one inner iteration (line 150):
`-(mean(out_target) - mean(out_pred)) + lambda_gp * gradient_penalty`. -/
def critic_loss_value (lambda_gp meanTarget meanPred gp : ℚ) : ℚ :=
  -(meanTarget - meanPred) + lambda_gp * gp

/-- The list of inner-iteration loss values of one `Critic.step` call,
with the i-th iteration's mean scores and gradient penalty abstracted as
functions of i. -/
def critic_step_losses (num : Nat) (lambda_gp : ℚ)
    (meanTarget meanPred gp : Nat → ℚ) : List ℚ :=
  (List.range num).map
    (fun i => critic_loss_value lambda_gp (meanTarget i) (meanPred i) (gp i))

/-- The value returned by `Critic.step` (lines 157-159):
`np.mean(critic_losses)`. -/
def critic_step_return (num : Nat) (lambda_gp : ℚ)
    (meanTarget meanPred gp : Nat → ℚ) : ℚ :=
  (critic_step_losses num lambda_gp meanTarget meanPred gp).sum /
    ((critic_step_losses num lambda_gp meanTarget meanPred gp).length : ℚ)

/-! ## Loss accumulators and epoch aggregation (TrainVAEProcess.run)

From `TrainVAEProcess.run` lines 528-539 (accumulator setup), 623-639
(per-step appends), 641-662 (interval logging with reset) and 665-673
(end-of-epoch aggregation). A single loss key is modelled; values are
rationals.
-/

/-- The two accumulators (`epoch_losses` and `log_losses` for one key)
plus the interval means emitted to the writer so far. -/
structure AccumState where
  epoch_losses : List ℚ
  log_losses : List ℚ
  interval_logs : List (Nat × ℚ)
  deriving DecidableEq, Repr

/-- One step's accumulator handling (lines 623-662): append the step's
value to both accumulators; then, when the step differs from the start
step and the logging interval fires, emit the mean of the interval
accumulator (when a writer is present) and reset the interval
accumulator. -/
def vae_accum_step (writer : Bool) (log_every : Option Nat)
    (start_step : Nat) (s : AccumState) (step : Nat) (v : ℚ) : AccumState :=
  let s1 : AccumState :=
    { s with epoch_losses := s.epoch_losses ++ [v],
             log_losses := s.log_losses ++ [v] }
  if step != start_step && fire_check step log_every then
    let emitted :=
      if writer then
        s1.interval_logs ++
          [(step, s1.log_losses.sum / (s1.log_losses.length : ℚ))]
      else s1.interval_logs
    { epoch_losses := s1.epoch_losses, log_losses := [],
      interval_logs := emitted }
  else s1

/-- Run the accumulator handling over one epoch whose steps are
`firstStep, firstStep+1, ...` with per-step loss values `vals`. -/
def vae_epoch_accum (writer : Bool) (log_every : Option Nat)
    (start_step firstStep : Nat) (vals : List ℚ) (s : AccumState) :
    AccumState :=
  ((List.range' firstStep vals.length).zip vals).foldl
    (fun s p => vae_accum_step writer log_every start_step s p.1 p.2) s

/-- The end-of-epoch aggregate the source emits (lines 666-671): when a
writer is present, `sum(log_losses[key]) / len(log_losses[key])` — the
interval accumulator, not the epoch accumulator — emitted only when
positive. -/
def vae_epoch_emit (writer : Bool) (s : AccumState) : Option ℚ :=
  if writer then
    let v := s.log_losses.sum / (s.log_losses.length : ℚ)
    if v > 0 then some v else none
  else none

/-- The specified per-epoch aggregate, following the spec's words: the
mean of the per-step values accumulated over the epoch, taken from the
per-epoch accumulator. Stated for comparison with `vae_epoch_emit`. -/
def epoch_mean_spec (s : AccumState) : ℚ :=
  s.epoch_losses.sum / (s.epoch_losses.length : ℚ)

/-! ## Action traces of the two run loops

From `BaseSDTrainProcess.run` (lines 346-444) and `TrainVAEProcess.run`
(lines 519-675): the observable side-effecting actions (sampling, saving,
interval logging) each run emits, in order.
-/

/-- An observable periodic or final action of a training run. A `none`
step means the unsuffixed (final/baseline) variant. -/
inductive TrAction where
  | sample (step : Option Nat)
  | save (step : Option Nat)
  | log (step : Nat)
  deriving DecidableEq, Repr

/-- The periodic actions of one loop iteration, shared verbatim by both
trainers (BaseSDTrainProcess.py lines 404-423, TrainVAEProcess.py lines
641-662): each action fires only when the step differs from the start
step and its own interval divides the step. -/
def periodic_actions (sample_every save_every log_every : Option Nat)
    (start_step step_num : Nat) : List TrAction :=
  if step_num != start_step then
    (if fire_check step_num sample_every then
        [TrAction.sample (some step_num)] else []) ++
    (if fire_check step_num save_every then
        [TrAction.save (some step_num)] else []) ++
    (if fire_check step_num log_every then
        [TrAction.log step_num] else [])
  else []

/-- The step loop of `BaseSDTrainProcess.run` (lines 373-428). The loop
variable runs over `[step_num, total_steps)`; the periodic checks read
`self.step_num`, which is assigned the loop variable only at the end of
each iteration, so the checks lag one step behind the loop variable.
Returns the final `step_num` and the emitted actions. -/
def base_loop (sample_every save_every log_every : Option Nat)
    (start_step total_steps : Nat) : Nat × List TrAction :=
  (List.range' start_step (total_steps - start_step)).foldl
    (fun acc s =>
      (s, acc.2 ++
        periodic_actions sample_every save_every log_every start_step acc.1))
    (start_step, [])

/-- The full action trace of `BaseSDTrainProcess.run` after setup: the
optional first-sample and baseline sample (lines 346-355), the step loop,
then the final `self.sample(self.step_num + 1)` and the unconditional
final `self.save()` (lines 430-432). -/
def base_run_actions (has_first_sample skip_first_sample : Bool)
    (sample_every save_every log_every : Option Nat)
    (start_step total_steps : Nat) : List TrAction :=
  (if has_first_sample then [TrAction.sample (some 0)] else []) ++
  (if skip_first_sample then [] else [TrAction.sample (some 0)]) ++
  (base_loop sample_every save_every log_every start_step total_steps).2 ++
  [TrAction.sample
      (some ((base_loop sample_every save_every log_every
        start_step total_steps).1 + 1)),
   TrAction.save none]

/-- From `TrainVAEProcess.run` lines 453-456: the epoch budget after
normalization against `max_steps // len(data_loader)`. `B` is the number
of batches per epoch. -/
def vae_num_epochs (max_steps B : Nat) (epochs : Option Nat) : Nat :=
  let max_step_epochs := max_steps / B
  match epochs with
  | none => max_step_epochs
  | some e => if e > max_step_epochs then max_step_epochs else e

/-- From `TrainVAEProcess.run` lines 458-462: the step budget after
normalization against `len(data_loader) * num_epochs`. -/
def vae_num_steps (max_steps B numEpochs : Nat) : Nat :=
  let max_epoch_steps := B * numEpochs
  if max_steps > max_epoch_steps then max_epoch_steps else max_steps

/-- The full action trace of `TrainVAEProcess.run` after setup: the
baseline `self.sample()` (line 527), the epoch/batch loop — whose breaks
on `step_num >= max_steps` and epoch budget make it execute exactly the
normalized number of steps, with the step counter never resetting across
epochs — and the final unconditional `self.save()` (line 675). The VAE
run starts with `step_num = 0` and the loop's `start_step` snapshot
equals that initial value (line 464). -/
def vae_run_actions (sample_every save_every log_every : Option Nat)
    (max_steps B : Nat) (epochs : Option Nat) : List TrAction :=
  let numEpochs := vae_num_epochs max_steps B epochs
  let numSteps := vae_num_steps max_steps B numEpochs
  [TrAction.sample none] ++
  (List.range numSteps).foldl
    (fun acc sn =>
      acc ++ periodic_actions sample_every save_every log_every 0 sn) [] ++
  [TrAction.save none]

/-! ## Startup configuration validation (TrainVAEProcess.__init__)

From `TrainVAEProcess.__init__` lines 223-227: the two `ValueError`
raises, which occur in the constructor — before `run`, hence before
`load_vae` (line 474) and before any training step.
-/

/-- The two fatal configuration errors raised by the constructor. -/
inductive VAEInitError where
  | sampleSourcesMissing
  | noStepBudget
  deriving DecidableEq, Repr

/-- The configuration fields the constructor's checks read. -/
structure VAERunConfig where
  sample_every : Option Nat
  sample_sources : Option (List String)
  epochs : Option Nat
  max_steps : Option Nat
  deriving DecidableEq, Repr

/-- From `TrainVAEProcess.__init__` lines 223-227: raise when
`sample_every` is given without `sample_sources`; raise when neither
`epochs` nor `max_steps` is given. -/
def vae_init (c : VAERunConfig) : Except VAEInitError Unit :=
  if c.sample_every.isSome && c.sample_sources.isNone then
    Except.error VAEInitError.sampleSourcesMissing
  else if c.epochs.isNone && c.max_steps.isNone then
    Except.error VAEInitError.noStepBudget
  else Except.ok ()

/-- A coarse resource-level event of the whole job. -/
inductive JobEvent where
  | modelLoad
  | trainStep (n : Nat)
  deriving DecidableEq, Repr

/-- The resource-level events of constructing and running the VAE
trainer: a constructor error propagates before `run`, so nothing
executes; otherwise the model is loaded (`load_vae`, line 474) and the
steps run. -/
def vae_job_events (c : VAERunConfig) (numSteps : Nat) : List JobEvent :=
  match vae_init c with
  | Except.error _ => []
  | Except.ok _ => JobEvent.modelLoad :: (List.range numSteps).map JobEvent.trainStep

/-! ## Frame property of save (BaseSDTrainProcess.save)

From `BaseSDTrainProcess.save` lines 166-177: when a network is present,
the scaling multiplier is saved into `prev_multiplier`, forced to `1.0`
for the `save_weights` call, and restored afterwards.
-/

/-- The network state visible to `save`: the current multiplier and the
multiplier that was in effect at the last weight serialization. -/
structure NetworkSaveState where
  multiplier : ℚ
  serialized_multiplier : Option ℚ
  deriving DecidableEq, Repr

/-- The network branch of `BaseSDTrainProcess.save` (lines 168-177):
record the multiplier, set it to 1.0, serialize the weights (which
captures the multiplier then in effect), restore the multiplier. -/
def network_save_weights_section (s : NetworkSaveState) : NetworkSaveState :=
  let prev_multiplier := s.multiplier
  let s1 : NetworkSaveState := { s with multiplier := 1 }
  let s2 : NetworkSaveState :=
    { s1 with serialized_multiplier := some s1.multiplier }
  { s2 with multiplier := prev_multiplier }

/-! ## Checkpoint retention (clean_up_saves and the two save methods)

From `BaseSDTrainProcess.clean_up_saves` (lines 136-152),
`BaseSDTrainProcess.save` (lines 154-186) and `TrainVAEProcess.save`
(lines 351-378). The save root is a list of checkpoint files in creation
order; each file carries its kind (deduced from the filename convention)
and creation time.
-/

/-- The kind a checkpoint filename encodes:
`{job_name}.safetensors` (final), `{job_name}_{step}.safetensors`
(intermediate), and the `CRITIC_`-prefixed variants. -/
inductive CkptKind where
  | final
  | intermediate (step : Nat)
  | criticFinal
  | criticIntermediate (step : Nat)
  deriving DecidableEq, Repr

/-- A checkpoint file: its kind and creation time. -/
structure CkptFile where
  kind : CkptKind
  ctime : Nat
  deriving DecidableEq, Repr

/-- Whether a file matches the pruning glob `{job_name}_*.safetensors`
(line 142): only step-suffixed main-model checkpoints match; the
unsuffixed final file and the `CRITIC_`-prefixed files do not. -/
def matches_step_glob : CkptKind → Bool
  | CkptKind.intermediate _ => true
  | _ => false

/-- Python's `files[:-keep]` slice (line 147): empty when `keep == 0`
(since `files[:-0]` is `files[:0]`), otherwise all but the last `keep`
elements. -/
def py_neg_slice (l : List CkptFile) (keep : Nat) : List CkptFile :=
  if keep = 0 then [] else l.take (l.length - keep)

/-- From `BaseSDTrainProcess.clean_up_saves` (lines 136-152): glob the
step-suffixed checkpoints; when more than `max_step_saves_to_keep`
exist, sort them by creation time (`files.sort(key=os.path.getctime)` is
a stable ascending sort) and delete the files in `files[:-keep]`. -/
def clean_up_saves (keep : Nat) (fs : List CkptFile) : List CkptFile :=
  if (fs.filter (fun f => matches_step_glob f.kind)).length > keep then
    fs.filter (fun f => decide (f ∉
      py_neg_slice
        (List.insertionSort (fun a b => a.ctime ≤ b.ctime)
          (fs.filter (fun g => matches_step_glob g.kind))) keep))
  else fs

/-- The kind of the file `{job_name}{step_num}.safetensors` a save with
optional step writes. -/
def save_filename_kind (step : Option Nat) : CkptKind :=
  match step with
  | none => CkptKind.final
  | some n => CkptKind.intermediate n

/-- The kind of the file `CRITIC_{job_name}{step_num}.safetensors` a
critic save writes. -/
def critic_filename_kind (step : Option Nat) : CkptKind :=
  match step with
  | none => CkptKind.criticFinal
  | some n => CkptKind.criticIntermediate n

/-- From `BaseSDTrainProcess.save` (lines 154-186): write the checkpoint
file (creation time `now`), then run `clean_up_saves`. -/
def base_save (keep : Nat) (step : Option Nat) (now : Nat)
    (fs : List CkptFile) : List CkptFile :=
  clean_up_saves keep (fs ++ [⟨save_filename_kind step, now⟩])

/-- From `TrainVAEProcess.save` (lines 351-378): write the checkpoint
file and, when the critic is enabled, the critic checkpoint
(`Critic.save`, lines 99-108). No pruning is performed. -/
def vae_save (use_critic : Bool) (step : Option Nat) (now : Nat)
    (fs : List CkptFile) : List CkptFile :=
  let fs1 := fs ++ [⟨save_filename_kind step, now⟩]
  if use_critic then fs1 ++ [⟨critic_filename_kind step, now⟩] else fs1

/-- The number of intermediate (step-suffixed) main-model checkpoints in
the save root. -/
def inter_count (fs : List CkptFile) : Nat :=
  (fs.filter (fun f => matches_step_glob f.kind)).length

end AIToolkit

namespace AIToolkit

/-- C2 (confirmed). The periodic predicate shared by sampling, saving and
logging fires iff the interval is a non-zero integer, the step differs
from the start step, and the step is divisible by the interval; in
particular it never fires when the interval is `None`/`0` or when the
step equals the start step. -/
theorem C2_should_fire_characterization (s start : Nat) (i : Option Nat) :
    should_fire s start i = true ↔
      (∃ n, i = some n ∧ n ≠ 0 ∧ s ≠ start ∧ s % n = 0) := by
  constructor
  · intro h
    unfold should_fire fire_check at h
    by_cases hss : s = start
    · simp [hss] at h
    · cases i with
      | none => simp [hss] at h
      | some n =>
        refine ⟨n, rfl, ?_, hss, ?_⟩
        · intro hn
          simp [hss, hn] at h
        · by_cases hn : n = 0
          · simp [hss, hn] at h
          · simp [hss, hn] at h
            omega
  · rintro ⟨n, rfl, hn, hss, hmod⟩
    unfold should_fire fire_check
    simp [hss, hn]
    omega

/-- C1 counterexample. Saving at step 5 and resuming does NOT yield
`step == 5`: the metadata records `step_num + 1`, so the resumed state
has `step_num = 6`. -/
theorem C1_counterexample :
    ¬ ((resume_after_save ⟨5, 5⟩).step_num = 5 ∧
       (resume_after_save ⟨5, 5⟩).start_step = 5) := by
  decide

/-- C1 (corrected). Saving at step N and resuming yields
`step == N + 1` and `start_step == N + 1` (the metadata records the step
counter plus one), and the first periodic-predicate evaluation at the
resumed step returns false for every interval, because the resumed step
equals the start step. -/
theorem C1_resume_roundtrip_amended (N : Nat) (i : Option Nat) :
    (resume_after_save ⟨N, N⟩).step_num = N + 1 ∧
    (resume_after_save ⟨N, N⟩).start_step = N + 1 ∧
    should_fire (resume_after_save ⟨N, N⟩).step_num
      (resume_after_save ⟨N, N⟩).start_step i = false := by
  refine ⟨rfl, rfl, ?_⟩
  simp [resume_after_save, load_weights, get_training_info, should_fire]

/-- C4 (confirmed). `get_critic_loss` returns exactly 0 when the current
step is below `start_step`; returns the negative mean critic score on the
prediction half scaled by `(current_step - start_step) / warmup_steps`
when `start_step <= current_step < start_step + warmup_steps`; and
returns the unscaled negative mean critic score when
`current_step >= start_step + warmup_steps`. -/
theorem C4_get_critic_loss_phases (ss ws sn : Nat) (scores : List ℚ) :
    (sn < ss → get_critic_loss ss ws sn scores = 0) ∧
    (ss ≤ sn → sn < ss + ws →
      get_critic_loss ss ws sn scores =
        negMean scores * (((sn : ℚ) - (ss : ℚ)) / (ws : ℚ))) ∧
    (ss + ws ≤ sn → get_critic_loss ss ws sn scores = negMean scores) := by
  unfold get_critic_loss
  refine ⟨?_, ?_, ?_⟩
  · intro h
    rw [if_pos h]
  · intro h1 h2
    rw [if_neg (by omega), if_pos h2]
  · intro h
    rw [if_neg (by omega), if_neg (by omega), mul_one]

/-- Witness for C4 at concrete inputs: start_step 10, warmup 5. -/
theorem C4_witness :
    get_critic_loss 10 5 3 [2] = 0 ∧
    get_critic_loss 10 5 12 [2] =
      negMean [2] * (((12 : ℚ) - (10 : ℚ)) / (5 : ℚ)) ∧
    get_critic_loss 10 5 20 [2] = negMean [2] :=
  ⟨(C4_get_critic_loss_phases 10 5 3 [2]).1 (by norm_num),
   (C4_get_critic_loss_phases 10 5 12 [2]).2.1 (by norm_num) (by norm_num),
   (C4_get_critic_loss_phases 10 5 20 [2]).2.2 (by norm_num)⟩

/-- C5 (confirmed). For each loss term, a configured weight of 0 means
the term's computation path is not executed and the term contributes
exactly 0 to the total; the total loss equals the sum over enabled terms
of term × term_weight plus the critic-generator term × critic_weight
(zero when the critic is disabled). -/
theorem C5_loss_composition (w : VAELossWeights) (uc : Bool)
    (raw : RawLossTerms) :
    (w.style_weight = 0 → (get_style_loss w raw).2 = false ∧
      (get_style_loss w raw).1 * w.style_weight = 0) ∧
    (w.content_weight = 0 → (get_content_loss w raw).2 = false ∧
      (get_content_loss w raw).1 * w.content_weight = 0) ∧
    (w.mse_weight = 0 → (get_mse_loss w raw).2 = false ∧
      (get_mse_loss w raw).1 * w.mse_weight = 0) ∧
    (w.kld_weight = 0 → (get_kld_loss w raw).2 = false ∧
      (get_kld_loss w raw).1 * w.kld_weight = 0) ∧
    (w.tv_weight = 0 → (get_tv_loss w raw).2 = false ∧
      (get_tv_loss w raw).1 * w.tv_weight = 0) ∧
    vae_total_loss w uc raw =
      (if w.style_weight > 0 then raw.style * w.style_weight else 0) +
      (if w.content_weight > 0 then raw.content * w.content_weight else 0) +
      (if w.kld_weight > 0 then raw.kld * w.kld_weight else 0) +
      (if w.mse_weight > 0 then raw.mse * w.mse_weight else 0) +
      (if w.tv_weight > 0 then raw.tv * w.tv_weight else 0) +
      (if uc then raw.critic * w.critic_weight else 0) := by
  refine ⟨?_, ?_, ?_, ?_, ?_, ?_⟩
  · intro h; simp [get_style_loss, h]
  · intro h; simp [get_content_loss, h]
  · intro h; simp [get_mse_loss, h]
  · intro h; simp [get_kld_loss, h]
  · intro h; simp [get_tv_loss, h]
  · unfold vae_total_loss get_style_loss get_content_loss get_kld_loss
      get_mse_loss get_tv_loss
    split_ifs <;> simp

/-- Witness for C5 at a concrete configuration: style disabled, mse
enabled, critic enabled. -/
theorem C5_witness :
    (get_style_loss ⟨0, 1, 0, 1, 1, 1⟩ ⟨3, 4, 5, 6, 7, 8⟩).2 = false ∧
    (get_style_loss ⟨0, 1, 0, 1, 1, 1⟩ ⟨3, 4, 5, 6, 7, 8⟩).1 *
      (0 : ℚ) = 0 :=
  (C5_loss_composition ⟨0, 1, 0, 1, 1, 1⟩ true ⟨3, 4, 5, 6, 7, 8⟩).1 rfl

/-- C10 (confirmed). The network branch of `save` restores the scaling
multiplier to its prior value after serialization, and the serialization
itself sees multiplier 1.0. -/
theorem C10_save_multiplier_frame (s : NetworkSaveState) :
    (network_save_weights_section s).multiplier = s.multiplier ∧
    (network_save_weights_section s).serialized_multiplier = some 1 :=
  ⟨rfl, rfl⟩

/-- C9 (confirmed). When sampling is requested without sample sources, or
neither an epoch count nor a step count is provided, the constructor
fails with a configuration error, and the job performs no model load and
no training step. -/
theorem C9_config_errors_fatal (c : VAERunConfig) (n : Nat)
    (h : (c.sample_every ≠ none ∧ c.sample_sources = none) ∨
         (c.epochs = none ∧ c.max_steps = none)) :
    (∃ e, vae_init c = Except.error e) ∧
    vae_job_events c n = [] := by
  have herr : ∃ e, vae_init c = Except.error e := by
    unfold vae_init
    rcases h with ⟨h1, h2⟩ | ⟨h1, h2⟩
    · rw [if_pos]
      · exact ⟨_, rfl⟩
      · simp [Option.isSome_iff_ne_none, h1, h2]
    · by_cases hfst : c.sample_every.isSome && c.sample_sources.isNone
      · rw [if_pos hfst]; exact ⟨_, rfl⟩
      · rw [if_neg hfst, if_pos]
        · exact ⟨_, rfl⟩
        · simp [h1, h2]
  refine ⟨herr, ?_⟩
  obtain ⟨e, he⟩ := herr
  unfold vae_job_events
  rw [he]

/-- Witness for C9: sampling interval 5 configured with no sample
sources. -/
theorem C9_witness :
    (∃ e, vae_init ⟨some 5, none, some 1, none⟩ = Except.error e) ∧
    vae_job_events ⟨some 5, none, some 1, none⟩ 10 = [] :=
  C9_config_errors_fatal ⟨some 5, none, some 1, none⟩ 10
    (Or.inl ⟨Option.some_ne_none 5, rfl⟩)

/-- Helper for C6: the parameters are unchanged by any fold of
`critic_inner_iter` whenever the update function fixes parameters at zero
gradient, because the second `zero_grad` clears the accumulator before
`optimizer.step()` runs. -/
theorem critic_foldl_params_fixed (u : ℚ → ℚ → ℚ) (hu : ∀ p, u p 0 = p)
    (g : Nat → ℚ) (l : List Nat) (s : CriticOptState) :
    (l.foldl (fun s i => critic_inner_iter u (g i) s) s).params =
      s.params := by
  induction l generalizing s with
  | nil => rfl
  | cons x xs ih =>
    rw [List.foldl_cons, ih]
    simp [critic_inner_iter, hu]

/-- C6 (code_bug evaluation). `Critic.step` does run
`num_critic_per_gen` inner iterations whose loss values follow
`-(mean target - mean pred) + lambda_gp * gp` and whose arithmetic mean
is returned; but the parameter update is NOT driven by the gradient of
that loss: `optimizer.zero_grad()` is called between
`critic_loss.backward()` and `optimizer.step()`, so for a
gradient-descent update the parameters are unchanged no matter what the
loss gradients are. -/
theorem C6_critic_update_ignores_gradient (lr lambda_gp : ℚ) (num : Nat)
    (g meanTarget meanPred gp : Nat → ℚ) (s : CriticOptState) :
    (critic_step_opt (sgdUpdate lr) g num s).params = s.params ∧
    (critic_step_losses num lambda_gp meanTarget meanPred gp).length =
      num ∧
    critic_step_return num lambda_gp meanTarget meanPred gp =
      (critic_step_losses num lambda_gp meanTarget meanPred gp).sum /
        (num : ℚ) := by
  refine ⟨?_, ?_, ?_⟩
  · exact critic_foldl_params_fixed (sgdUpdate lr)
      (fun p => by simp [sgdUpdate]) g (List.range num) s
  · simp [critic_step_losses]
  · simp [critic_step_return, critic_step_losses]

/-- C7 (code_bug evaluation). Concrete epoch: four steps with loss
values 1, 2, 3, 4, `log_every = 2`, writer present, start step 0. The
per-epoch accumulator correctly holds all four values, but the aggregate
the source emits at the end of the epoch is computed from the interval
accumulator — which was reset when the interval log fired at step 2 — so
it emits 4 instead of the epoch mean 5/2. -/
theorem C7_epoch_aggregate_uses_interval_accumulator :
    (vae_epoch_accum true (some 2) 0 0 [1, 2, 3, 4]
        ⟨[], [], []⟩).epoch_losses = [1, 2, 3, 4] ∧
    vae_epoch_emit true
        (vae_epoch_accum true (some 2) 0 0 [1, 2, 3, 4] ⟨[], [], []⟩) =
      some 4 ∧
    epoch_mean_spec
        (vae_epoch_accum true (some 2) 0 0 [1, 2, 3, 4] ⟨[], [], []⟩) =
      5 / 2 ∧
    vae_epoch_emit true
        (vae_epoch_accum true (some 2) 0 0 [1, 2, 3, 4] ⟨[], [], []⟩) ≠
      some (epoch_mean_spec
        (vae_epoch_accum true (some 2) 0 0 [1, 2, 3, 4] ⟨[], [], []⟩)) := by
  have hs : vae_epoch_accum true (some 2) 0 0 [1, 2, 3, 4] ⟨[], [], []⟩ =
      ⟨[1, 2, 3, 4], [4], [(2, 2)]⟩ := by
    norm_num [vae_epoch_accum, vae_accum_step, fire_check, List.range',
      List.zip, List.zipWith]
  rw [hs]
  refine ⟨rfl, ?_, ?_, ?_⟩
  · norm_num [vae_epoch_emit]
  · norm_num [epoch_mean_spec]
  · norm_num [vae_epoch_emit, epoch_mean_spec]

/-- Helper: the periodic actions of a loop iteration never contain the
unsuffixed final save — every periodic save carries its step number. -/
theorem save_none_not_mem_periodic (se sv le : Option Nat) (ss sn : Nat) :
    TrAction.save none ∉ periodic_actions se sv le ss sn := by
  unfold periodic_actions
  split_ifs <;> simp

/-- Helper: folding the base-trainer loop body never introduces the
unsuffixed final save into the action accumulator. -/
theorem save_none_not_mem_base_loop_aux (se sv le : Option Nat) (ss : Nat)
    (l : List Nat) (acc : Nat × List TrAction)
    (h : TrAction.save none ∉ acc.2) :
    TrAction.save none ∉
      (l.foldl
        (fun acc s =>
          (s, acc.2 ++ periodic_actions se sv le ss acc.1)) acc).2 := by
  induction l generalizing acc with
  | nil => exact h
  | cons x xs ih =>
    rw [List.foldl_cons]
    apply ih
    intro hmem
    rcases List.mem_append.mp hmem with h1 | h1
    · exact h h1
    · exact save_none_not_mem_periodic se sv le ss acc.1 h1

/-- Helper: folding the VAE-trainer loop body never introduces the
unsuffixed final save into the action accumulator. -/
theorem save_none_not_mem_vae_loop_aux (se sv le : Option Nat)
    (l : List Nat) (acc : List TrAction) (h : TrAction.save none ∉ acc) :
    TrAction.save none ∉
      l.foldl (fun acc sn => acc ++ periodic_actions se sv le 0 sn) acc := by
  induction l generalizing acc with
  | nil => exact h
  | cons x xs ih =>
    rw [List.foldl_cons]
    apply ih
    intro hmem
    rcases List.mem_append.mp hmem with h1 | h1
    · exact h h1
    · exact save_none_not_mem_periodic se sv le 0 x h1

/-- C8 counterexample. VAE run with `max_steps = 3`, 3 batches per epoch,
1 epoch, `save_every = 2` and sampling disabled: the trace is
`[sample None, save 2, save None]` — the run ends with the unconditional
final save NOT preceded by any final sample pass, so the claim fails for
the VAE trainer instantiation. -/
theorem C8_counterexample :
    ¬ ∃ (pre : List TrAction) (st : Option Nat),
        vae_run_actions none (some 2) none 3 3 (some 1) =
          pre ++ [TrAction.sample st, TrAction.save none] := by
  have htr : vae_run_actions none (some 2) none 3 3 (some 1) =
      [TrAction.sample none, TrAction.save (some 2), TrAction.save none] := by
    decide
  rintro ⟨pre, st, h⟩
  rw [htr] at h
  rcases pre with _ | ⟨a, _ | ⟨b, _ | ⟨c, pre4⟩⟩⟩ <;> simp at h

/-- C8 (corrected). When the step loop completes, the diffusion trainer
emits one final sample pass followed by one final unconditional save —
for every interval configuration, and the final save is the only
unsuffixed save of the run. The VAE trainer emits only the final
unconditional save (also the only unsuffixed one), with no final sample
pass. -/
theorem C8_final_actions_amended (hf sf : Bool)
    (se sv le : Option Nat) (ss ts ms B : Nat) (ep : Option Nat) :
    (∃ pre, base_run_actions hf sf se sv le ss ts =
        pre ++ [TrAction.sample (some ((base_loop se sv le ss ts).1 + 1)),
                TrAction.save none] ∧
      TrAction.save none ∉ pre) ∧
    (∃ pre, vae_run_actions se sv le ms B ep =
        pre ++ [TrAction.save none] ∧
      TrAction.save none ∉ pre) := by
  constructor
  · refine ⟨(if hf then [TrAction.sample (some 0)] else []) ++
      (if sf then [] else [TrAction.sample (some 0)]) ++
      (base_loop se sv le ss ts).2, ?_, ?_⟩
    · simp [base_run_actions, List.append_assoc]
    · intro hmem
      rcases List.mem_append.mp hmem with h1 | h1
      · rcases List.mem_append.mp h1 with h2 | h2 <;>
          split_ifs at h2 <;> simp at h2
      · exact save_none_not_mem_base_loop_aux se sv le ss _ _ (by simp) h1
  · refine ⟨[TrAction.sample none] ++
      (List.range
          (vae_num_steps ms B (vae_num_epochs ms B ep))).foldl
        (fun acc sn => acc ++ periodic_actions se sv le 0 sn) [], ?_, ?_⟩
    · simp [vae_run_actions, List.append_assoc]
    · intro hmem
      rcases List.mem_append.mp hmem with h1 | h1
      · simp at h1
      · exact save_none_not_mem_vae_loop_aux se sv le _ _ (by simp) h1

/-- Helper for C3: filtering a strictly-ctime-sorted list down to the
elements outside its own length-`k` prefix yields exactly its suffix
from index `k`. -/
theorem filter_not_mem_take_of_pairwise_lt (M : List CkptFile) (k : Nat)
    (hM : M.Pairwise (fun a b => a.ctime < b.ctime)) :
    M.filter (fun f => decide (f ∉ M.take k)) = M.drop k := by
  have hsplit : List.Pairwise (fun a b : CkptFile => a.ctime < b.ctime)
      (M.take k ++ M.drop k) := by
    rw [List.take_append_drop]; exact hM
  have hcross := (List.pairwise_append.mp hsplit).2.2
  have key : ∀ p : CkptFile → Bool, (∀ a ∈ M.take k, p a = false) →
      (∀ a ∈ M.drop k, p a = true) → M.filter p = M.drop k := by
    intro p hp1 hp2
    conv_lhs => rw [← List.take_append_drop k M]
    rw [List.filter_append]
    rw [List.filter_eq_nil_iff.mpr (fun a ha => by rw [hp1 a ha]; simp),
      List.filter_eq_self.mpr hp2, List.nil_append]
  apply key
  · intro a ha
    simp [ha]
  · intro a ha
    simp only [decide_eq_true_eq]
    intro hmem
    exact absurd (hcross a hmem a ha) (lt_irrefl _)

/-- Helper for C3: the effect of `clean_up_saves` on a save root whose
files have strictly increasing creation times, with a retention budget of
at least one: the surviving step-suffixed checkpoints are exactly the
most recent ones (the length-`keep` suffix of the glob matches in ctime
order), and no file outside the glob is ever deleted. -/
theorem clean_up_saves_sorted (keep : Nat) (fs : List CkptFile)
    (hkeep : 1 ≤ keep)
    (hsorted : fs.Pairwise (fun a b => a.ctime < b.ctime)) :
    (clean_up_saves keep fs).filter (fun f => matches_step_glob f.kind) =
      ((fs.filter (fun f => matches_step_glob f.kind)).drop
        ((fs.filter (fun f => matches_step_glob f.kind)).length - keep)) ∧
    ∀ f ∈ fs, matches_step_glob f.kind = false →
      f ∈ clean_up_saves keep fs := by
  have hM : (fs.filter (fun f => matches_step_glob f.kind)).Pairwise
      (fun a b => a.ctime < b.ctime) := hsorted.filter _
  have hMsort : List.Sorted (fun a b : CkptFile => a.ctime ≤ b.ctime)
      (fs.filter (fun f => matches_step_glob f.kind)) :=
    hM.imp (fun h => le_of_lt h)
  have hsort_eq :
      List.insertionSort (fun a b : CkptFile => a.ctime ≤ b.ctime)
        (fs.filter (fun g => matches_step_glob g.kind)) =
      fs.filter (fun g => matches_step_glob g.kind) :=
    hMsort.insertionSort_eq
  unfold clean_up_saves
  by_cases hlen :
      (fs.filter (fun f => matches_step_glob f.kind)).length > keep
  · rw [if_pos hlen, hsort_eq]
    simp only [py_neg_slice, if_neg (by omega : ¬ keep = 0)]
    constructor
    · rw [List.filter_filter]
      have hcomm :
          fs.filter (fun a => matches_step_glob a.kind &&
            decide (a ∉
              (fs.filter (fun g => matches_step_glob g.kind)).take
                ((fs.filter
                  (fun g => matches_step_glob g.kind)).length - keep))) =
          fs.filter (fun a =>
            decide (a ∉
              (fs.filter (fun g => matches_step_glob g.kind)).take
                ((fs.filter
                  (fun g => matches_step_glob g.kind)).length - keep)) &&
            matches_step_glob a.kind) :=
        List.filter_congr (fun a _ => by rw [Bool.and_comm])
      rw [hcomm, ← List.filter_filter]
      exact filter_not_mem_take_of_pairwise_lt _ _ hM
    · intro f hf hglob
      rw [List.mem_filter]
      refine ⟨hf, ?_⟩
      simp only [decide_eq_true_eq]
      intro hmem
      have hfM := List.mem_of_mem_take hmem
      have := List.of_mem_filter hfM
      rw [hglob] at this
      exact Bool.false_ne_true this
  · rw [if_neg hlen]
    constructor
    · rw [Nat.sub_eq_zero_of_le (by omega), List.drop_zero]
    · intro f hf _
      exact hf

/-- C3 counterexample. The VAE trainer's `save` performs no pruning at
all: with `max_step_saves_to_keep = 1` (spec scenario B), two VAE saves
at steps 100 and 200 leave two intermediate checkpoints in the save
root, violating the retention bound. -/
theorem C3_counterexample :
    ¬ inter_count
        (vae_save false (some 200) 2 (vae_save false (some 100) 1 [])) ≤
      1 := by
  decide

/-- C3 (corrected). For the diffusion trainer's `save` — whose
`clean_up_saves` call implements the retention policy — the invariant
holds whenever `max_step_saves_to_keep ≥ 1` (with `keep = 0` Python's
`files[:-0]` deletes nothing) and files carry strictly increasing
creation times: after the save at time `now`, at most `keep`
intermediate checkpoints remain, the survivors are exactly the most
recent ones (the ctime-ordered suffix), and no unsuffixed final
checkpoint is ever deleted. The VAE trainer's `save` never prunes, so
the bound does not hold there (see the counterexample). -/
theorem C3_retention_amended (keep : Nat) (step : Option Nat) (now : Nat)
    (fs : List CkptFile) (hkeep : 1 ≤ keep)
    (hsorted : (fs ++ [CkptFile.mk (save_filename_kind step) now]).Pairwise
      (fun a b => a.ctime < b.ctime)) :
    inter_count (base_save keep step now fs) ≤ keep ∧
    (base_save keep step now fs).filter
        (fun f => matches_step_glob f.kind) =
      ((fs ++ [CkptFile.mk (save_filename_kind step) now]).filter
          (fun f => matches_step_glob f.kind)).drop
        (((fs ++ [CkptFile.mk (save_filename_kind step) now]).filter
          (fun f => matches_step_glob f.kind)).length - keep) ∧
    ∀ f ∈ fs ++ [CkptFile.mk (save_filename_kind step) now],
      matches_step_glob f.kind = false →
        f ∈ base_save keep step now fs := by
  obtain ⟨h1, h2⟩ := clean_up_saves_sorted keep
    (fs ++ [CkptFile.mk (save_filename_kind step) now]) hkeep hsorted
  refine ⟨?_, h1, h2⟩
  unfold inter_count base_save
  rw [h1, List.length_drop]
  omega

/-- Witness for C3 (spec scenario B): intermediates at steps 100 and
200, `keep = 1`, new diffusion-trainer save at step 300: at most one
intermediate checkpoint remains. -/
theorem C3_witness :
    inter_count (base_save 1 (some 300) 3
      [⟨CkptKind.intermediate 100, 1⟩, ⟨CkptKind.intermediate 200, 2⟩]) ≤
      1 :=
  (C3_retention_amended 1 (some 300) 3
    [⟨CkptKind.intermediate 100, 1⟩, ⟨CkptKind.intermediate 200, 2⟩]
    (by norm_num)
    (by simp [List.pairwise_cons])).1

end AIToolkit
